import Mathlib

/-!
Verification of the Mumbai evacuation-route recommendation repository.

The repository is a family of near-duplicate Streamlit/CLI variants around one
computational core: fuzzy place-name resolution against an area catalog,
filtering of flood-safe destination candidates, per-candidate distance/ETA and
composite-score computation, and ascending sort with top-K truncation.

Modelling conventions, used uniformly below:
* Catalog rows (pandas DataFrame rows) become Lean structures whose fields
  carry the source column names.
* The fuzzy similarity metric lives in an external library
  (fuzzywuzzy / rapidfuzz), not in this repository; every pipeline is therefore
  parametric in a metric `String → String → ℕ` (scores 0..100), and
  `extractOne` reproduces the library behaviour used by the code: best score
  over the choices, earliest choice winning ties.
* The inline numeric distance computation (Haversine trigonometry, or the
  Euclidean square root in the simplified variant) is irrational-valued, so the
  pipelines are parametric in the scalar distance subroutine
  `d : ℚ → ℚ → ℚ → ℚ → ℚ` (arguments lat1 lon1 lat2 lon2); every pipeline
  theorem holds for an arbitrary `d`, in particular for the true distance.
  The Haversine formula itself is embedded separately over ℝ, where its
  algebraic identities are proved.
* Python `sorted` is a stable ascending sort by key; it is modelled by
  `List.insertionSort` with the non-strict key order, which is extensionally
  the same stable sort and is kernel-computable.
* Display-only rounding (`round(x, 2)` on stored route fields) and the
  `.title()` re-casing of destination names are presentation formatting and
  are dropped: names are kept in their normalized lowercase form, values
  exact.
-/

/-- Helper for uniqueFirst: keeps the elements not yet seen, in order. -/
def uniqueFirstAux (seen : List String) : List String → List String
  | [] => []
  | a :: as =>
      if a ∈ seen then uniqueFirstAux seen as
      else a :: uniqueFirstAux (a :: seen) as

/-- First-occurrence deduplication, the order-preserving semantics of
`pandas.Series.unique()` applied to the catalog name column. -/
def uniqueFirst (l : List String) : List String := uniqueFirstAux [] l

/-- ASCII lowercasing of python str.lower over the catalog name alphabet,
written over the character list so that it reduces in the kernel (the core
String.toLower is byte-position based and does not). -/
def strToLower (s : String) : String := ⟨s.data.map Char.toLower⟩

/-- Python str whitespace test used by str.strip. -/
def isPyWhitespace (c : Char) : Bool :=
  c = ' ' ∨ c = '\t' ∨ c = '\n' ∨ c = '\r' ∨ c = '\x0b' ∨ c = '\x0c'

/-- Python str.strip(): removes leading and trailing whitespace. -/
def strTrim (s : String) : String :=
  ⟨((s.data.dropWhile isPyWhitespace).reverse.dropWhile isPyWhitespace).reverse⟩

/-- Behaviour of `process.extractOne(query, choices)` from the fuzzy-matching
library, parametric in the similarity metric: returns the choice with the
maximal score, the earliest choice winning ties (Python `max` keeps the first
maximal element), or nothing on an empty choice list. -/
def extractOne (metric : String → String → ℕ) (q : String) :
    List String → Option (String × ℕ)
  | [] => none
  | c :: cs =>
      some (cs.foldl
        (fun best s => if metric q s > best.2 then (s, metric q s) else best)
        (c, metric q c))

theorem extractOne_mem (metric : String → String → ℕ) (q : String)
    (cs : List String) (m : String) (s : ℕ)
    (h : extractOne metric q cs = some (m, s)) : m ∈ cs := by
  cases cs with
  | nil => simp [extractOne] at h
  | cons c cs =>
    simp only [extractOne, Option.some.injEq] at h
    have key : ∀ (l : List String) (b : String × ℕ), b.1 ∈ c :: cs →
        (∀ x ∈ l, x ∈ c :: cs) →
        (l.foldl (fun best s => if metric q s > best.2 then (s, metric q s) else best) b).1
          ∈ c :: cs := by
      intro l
      induction l with
      | nil => intro b hb _; simpa using hb
      | cons x xs ih =>
        intro b hb hl
        simp only [List.foldl_cons]
        by_cases hx : metric q x > b.2
        · simp only [hx, if_pos]
          exact ih (x, metric q x) (hl x (by simp)) (fun y hy => hl y (by simp [hy]))
        · rw [if_neg hx]
          exact ih b hb (fun y hy => hl y (by simp [hy]))
    have := key cs (c, metric q c) (by simp) (fun y hy => by simp [hy])
    rw [h] at this
    exact this

theorem uniqueFirstAux_subset (l : List String) :
    ∀ seen, ∀ s ∈ uniqueFirstAux seen l, s ∈ l := by
  induction l with
  | nil => intro seen s hs; simp [uniqueFirstAux] at hs
  | cons a as ih =>
    intro seen s hs
    rw [uniqueFirstAux] at hs
    by_cases ha : a ∈ seen
    · rw [if_pos ha] at hs
      exact List.mem_cons_of_mem a (ih seen s hs)
    · rw [if_neg ha] at hs
      rcases List.mem_cons.mp hs with h | h
      · simp [h]
      · exact List.mem_cons_of_mem a (ih (a :: seen) s h)

theorem uniqueFirst_subset (l : List String) : ∀ s ∈ uniqueFirst l, s ∈ l :=
  fun s hs => uniqueFirstAux_subset l [] s hs

namespace App

/-- Flood risk levels appearing in the embedded Mumbai catalog of app.py
(column Flood_Risk_Level, values Low, Medium, High). -/
inductive Risk where
  | low
  | medium
  | high
deriving DecidableEq, Repr

/-- The dict lookup at app.py line 137:
risk_score = \x7b"Low": 1, "Medium": 2, "High": 3\x7d[level]. -/
def risk_score : Risk → ℚ
  | .low => 1
  | .medium => 2
  | .high => 3

/-- One row of the embedded catalog of app.py (load_mumbai_data), after the
normalization of line 94: the Areas value is trimmed and lowercased. -/
structure AreaRecord where
  ward_code : String
  areas : String
  latitude : ℚ
  longitude : ℚ
  flood_risk_level : Risk
deriving DecidableEq, Repr

/-- One route dict built at app.py lines 150-159.  The destination name is
kept in its normalized lowercase form (the source applies the display
re-casing .title piecemeal) and distance and ETA are kept exact (the source
rounds them for display only). -/
structure Route where
  destination : String
  ward : String
  destination_lat : ℚ
  destination_lon : ℚ
  distance_km : ℚ
  eta_min : ℚ
  risk_level : Risk
  combined_score : ℚ
deriving DecidableEq, Repr

/-- The sort key of app.py line 162: ascending combined_score. -/
def routeLe (a b : Route) : Prop := a.combined_score ≤ b.combined_score

instance : DecidableRel routeLe :=
  fun a b => inferInstanceAs (Decidable (a.combined_score ≤ b.combined_score))

instance : IsTotal Route routeLe := ⟨fun a b => le_total a.combined_score b.combined_score⟩

instance : IsTrans Route routeLe := ⟨fun _ _ _ h1 h2 => le_trans h1 h2⟩

/-- calculate_evacuation_routes of app.py (lines 103-163), parametric in the
fuzzy similarity metric and in the scalar Haversine subroutine d (the inline
trigonometric block of lines 126-134).  Returns (best_match, score, routes)
exactly as the source does: (None, None, []) below the match threshold,
(match, score, []) when no safer zone exists, and otherwise the top three
routes sorted ascending by combined_score.  The unreachable catalog-lookup
failure (the fuzzy match is always drawn from the catalog) also yields
(None, None, []). -/
def calculate_evacuation_routes (metric : String → String → ℕ)
    (d : ℚ → ℚ → ℚ → ℚ → ℚ) (flood_df : List AreaRecord) (user_area : String) :
    Option String × Option ℕ × List Route :=
  match extractOne metric (strToLower user_area) (uniqueFirst (flood_df.map (fun r => r.areas))) with
  | none => (none, none, [])
  | some (best_match, score) =>
    if score < 50 then (none, none, [])
    else
      match flood_df.find? (fun r => r.areas = best_match) with
      | none => (none, none, [])
      | some start_area =>
        let safe_zones :=
          (flood_df.filter (fun r =>
            r.flood_risk_level = .low ∨ r.flood_risk_level = .medium)).filter
            (fun r => r.areas ≠ best_match)
        if safe_zones.isEmpty then (some best_match, some score, [])
        else
          let routes := safe_zones.map (fun safe_area =>
            let distance_km :=
              d start_area.latitude start_area.longitude safe_area.latitude safe_area.longitude
            let combined_score := risk_score safe_area.flood_risk_level * 2 + distance_km * (1/2)
            let speed_kmh : ℚ := if distance_km < 5 then 15 else if distance_km < 15 then 25 else 35
            let eta_min := distance_km / speed_kmh * 60 * (13/10)
            { destination := safe_area.areas
              ward := safe_area.ward_code
              destination_lat := safe_area.latitude
              destination_lon := safe_area.longitude
              distance_km := distance_km
              eta_min := eta_min
              risk_level := safe_area.flood_risk_level
              combined_score := combined_score })
          (some best_match, some score, (routes.insertionSort routeLe).take 3)

/-- Outcome of pressing the FIND EVACUATION ROUTES button in app.py
(lines 239-251): either the empty-input error path (st.error, no computation)
or a computed result triple stored into the session state. -/
inductive ButtonOutcome where
  | emptyInputError
  | computed (best_match : Option String) (score : Option ℕ) (routes : List Route)
deriving DecidableEq, Repr

/-- The button handler of app.py lines 239-251: a query whose strip() is empty
short-circuits to the error path before calculate_evacuation_routes (and with
it the similarity metric) is ever invoked. -/
def find_routes_button (metric : String → String → ℕ)
    (d : ℚ → ℚ → ℚ → ℚ → ℚ) (flood_df : List AreaRecord) (user_region : String) :
    ButtonOutcome :=
  if strTrim user_region = "" then .emptyInputError
  else
    match calculate_evacuation_routes metric d flood_df user_region with
    | (b, s, r) => .computed b s r

end App

namespace StreamlitApp

/-- Flood risk values of the streamlit_app.py catalog (column Flood_Risk):
Low, Medium, High, Critical. -/
inductive Risk where
  | low
  | medium
  | high
  | critical
deriving DecidableEq, Repr

/-- The lookup risk_scores.get(level, 2) of streamlit_app.py lines 324-326;
every enum value is a key, so the default 2 is never taken. -/
def risk_scores : Risk → ℚ
  | .critical => 4
  | .high => 3
  | .medium => 2
  | .low => 1

/-- Evacuation priority values of the streamlit_app.py catalog. -/
inductive Priority where
  | safe
  | standard
  | urgent
  | immediate
deriving DecidableEq, Repr

/-- One row of the streamlit_app.py catalog after the lowercase normalization
of its loader (line 275). -/
structure AreaRecord where
  ward : String
  area_name : String
  latitude : ℚ
  longitude : ℚ
  flood_risk : Risk
  evacuation_priority : Priority
  population_density : ℚ
deriving DecidableEq, Repr

/-- The transport recommendation of streamlit_app.py lines 348-362. -/
def transport_recommendation (current_priority : Priority) (distance_km : ℚ) : String :=
  if current_priority = .immediate then
    if distance_km < 2 then "Walk Fast"
    else if distance_km < 8 then "Bicycle/Auto"
    else "Emergency Vehicle"
  else if distance_km < 1 then "Walk"
  else if distance_km < 5 then "Bicycle"
  else if distance_km < 12 then "Car/Taxi"
  else "Bus/Train"

/-- One route dict built at streamlit_app.py lines 366-380, with the display
rounding dropped and the destination name kept lowercase. -/
structure Route where
  destination : String
  ward : String
  destination_lat : ℚ
  destination_lon : ℚ
  distance_km : ℚ
  eta_minutes : ℚ
  risk_level : Risk
  evacuation_priority : Priority
  safety_improvement : ℚ
  capacity_score : ℚ
  route_score : ℚ
  population_density : ℚ
  transport : String
deriving DecidableEq, Repr

/-- The sort key of streamlit_app.py line 382: ascending route_score. -/
def routeLe (a b : Route) : Prop := a.route_score ≤ b.route_score

instance : DecidableRel routeLe :=
  fun a b => inferInstanceAs (Decidable (a.route_score ≤ b.route_score))

instance : IsTotal Route routeLe := ⟨fun a b => le_total a.route_score b.route_score⟩

instance : IsTrans Route routeLe := ⟨fun _ _ _ h1 h2 => le_trans h1 h2⟩

/-- The composite score of streamlit_app.py lines 328-331:
route_score = distance_km * 0.3 - (current_risk_score - safety_score) * 2,
stated over the risk levels of start and destination. -/
def route_score_of (current_risk dest_risk : Risk) (distance_km : ℚ) : ℚ :=
  distance_km * (3/10) - (risk_scores current_risk - risk_scores dest_risk) * 2

/-- calculate_evacuation_routes of streamlit_app.py (lines 284-383),
parametric in the similarity metric and the scalar Haversine subroutine d.
Threshold 40; candidates restricted to Low or Medium risk, Safe or Standard
priority, excluding the matched start; top five routes by ascending
route_score. -/
def calculate_evacuation_routes (metric : String → String → ℕ)
    (d : ℚ → ℚ → ℚ → ℚ → ℚ) (flood_df : List AreaRecord) (user_area : String) :
    Option String × Option ℕ × List Route :=
  match extractOne metric (strToLower user_area) (uniqueFirst (flood_df.map (fun r => r.area_name))) with
  | none => (none, none, [])
  | some (best_match, score) =>
    if score < 40 then (none, none, [])
    else
      match flood_df.find? (fun r => r.area_name = best_match) with
      | none => (none, none, [])
      | some current_location =>
        let current_risk := current_location.flood_risk
        let current_priority := current_location.evacuation_priority
        let safe_zones := flood_df.filter (fun r =>
          (r.flood_risk = .low ∨ r.flood_risk = .medium) ∧
          r.area_name ≠ best_match ∧
          (r.evacuation_priority = .safe ∨ r.evacuation_priority = .standard))
        if safe_zones.isEmpty then (some best_match, some score, [])
        else
          let routes := safe_zones.map (fun destination =>
            let distance_km :=
              d current_location.latitude current_location.longitude
                destination.latitude destination.longitude
            let safety_improvement :=
              (risk_scores current_risk - risk_scores destination.flood_risk) * 2
            let route_score := distance_km * (3/10) - safety_improvement
            let base_speed : ℚ :=
              if distance_km < 3 then 12 else if distance_km < 8 then 18
              else if distance_km < 15 then 25 else 35
            let actual_speed := base_speed * (7/10)
            let total_eta := distance_km / actual_speed * 60 * (14/10)
            let capacity_score :=
              min 100 (max 10 (100 - destination.population_density / 1000))
            { destination := destination.area_name
              ward := destination.ward
              destination_lat := destination.latitude
              destination_lon := destination.longitude
              distance_km := distance_km
              eta_minutes := total_eta
              risk_level := destination.flood_risk
              evacuation_priority := destination.evacuation_priority
              safety_improvement := safety_improvement
              capacity_score := capacity_score
              route_score := route_score
              population_density := destination.population_density
              transport := transport_recommendation current_priority distance_km })
          (some best_match, some score, (routes.insertionSort routeLe).take 5)

end StreamlitApp

namespace Simple

/-- One row of the evacuation_app_simple.py catalog after lowercase
normalization of the Areas column (line 34).  The risk column is the free-form
string column Flood-risk_level. -/
structure AreaRecord where
  ward_code : String
  areas : String
  latitude : ℚ
  longitude : ℚ
  flood_risk_level : String
deriving DecidableEq, Repr

/-- One route dict built at evacuation_app_simple.py lines 71-78, destination
name kept lowercase. -/
structure Route where
  destination : String
  destination_lat : ℚ
  destination_lon : ℚ
  distance_km : ℚ
  eta_min : ℚ
  risk_level : String
deriving DecidableEq, Repr

/-- The sort key of evacuation_app_simple.py line 81: ascending distance. -/
def routeLe (a b : Route) : Prop := a.distance_km ≤ b.distance_km

instance : DecidableRel routeLe :=
  fun a b => inferInstanceAs (Decidable (a.distance_km ≤ b.distance_km))

instance : IsTotal Route routeLe := ⟨fun a b => le_total a.distance_km b.distance_km⟩

instance : IsTrans Route routeLe := ⟨fun _ _ _ h1 h2 => le_trans h1 h2⟩

/-- The safe-area filter of evacuation_app_simple.py line 55: the lowercased
risk string is one of low, minimal, safe.  Note: the matched start is NOT
excluded here. -/
def isSafe (r : AreaRecord) : Bool :=
  strToLower r.flood_risk_level = "low" ∨ strToLower r.flood_risk_level = "minimal" ∨
    strToLower r.flood_risk_level = "safe"

/-- calculate_simple_routes of evacuation_app_simple.py (lines 42-82),
parametric in the similarity metric and the scalar Euclidean-distance
subroutine d (the inline sqrt block of lines 64-66).  Threshold 60; only the
first three safe areas in catalog order are scored (safe_areas.head(3));
result truncated to two routes sorted by distance. -/
def calculate_simple_routes (metric : String → String → ℕ)
    (d : ℚ → ℚ → ℚ → ℚ → ℚ) (flood_df : List AreaRecord) (user_area : String) :
    Option String × Option ℕ × List Route :=
  match extractOne metric (strToLower user_area) (uniqueFirst (flood_df.map (fun r => r.areas))) with
  | none => (none, none, [])
  | some (best_match, score) =>
    if score < 60 then (none, none, [])
    else
      match flood_df.find? (fun r => r.areas = best_match) with
      | none => (none, none, [])
      | some start =>
        let safe_areas := flood_df.filter (fun r => isSafe r)
        if safe_areas.isEmpty then (some best_match, some score, [])
        else
          let routes := (safe_areas.take 3).map (fun safe_area =>
            let distance_km :=
              d start.latitude start.longitude safe_area.latitude safe_area.longitude
            { destination := safe_area.areas
              destination_lat := safe_area.latitude
              destination_lon := safe_area.longitude
              distance_km := distance_km
              eta_min := distance_km / 25 * 60
              risk_level := safe_area.flood_risk_level })
          (some best_match, some score, (routes.insertionSort routeLe).take 2)

/-- The inline sample catalog of evacuation_app_simple.py lines 24-31 (the
fallback data when the CSV is absent), after lowercase normalization. -/
def sample_flood_df : List AreaRecord :=
  [ { ward_code := "Ward A", areas := "colaba causeway", latitude := 189151/10000,
      longitude := 728141/10000, flood_risk_level := "Moderate" },
    { ward_code := "Ward B", areas := "fort", latitude := 190509/10000,
      longitude := 727615/10000, flood_risk_level := "Low" },
    { ward_code := "Ward C", areas := "marine lines", latitude := 189458/10000,
      longitude := 728238/10000, flood_risk_level := "Moderate" },
    { ward_code := "A", areas := "ballard estate", latitude := 189496/10000,
      longitude := 728414/10000, flood_risk_level := "Moderate" },
    { ward_code := "B", areas := "dongri circle", latitude := 189594/10000,
      longitude := 728376/10000, flood_risk_level := "Moderate" },
    { ward_code := "C", areas := "cst", latitude := 189472/10000,
      longitude := 728272/10000, flood_risk_level := "Moderate" } ]

end Simple

namespace EvacApp

/-- One row of the evacuation_app.py catalog (columns Areas, Latitude,
Longitude and the string column Flood-risk_level), names lowercased. -/
structure AreaRecord where
  areas : String
  latitude : ℚ
  longitude : ℚ
  flood_risk_level : String
deriving DecidableEq, Repr

/-- One route dict of evacuation_app.py lines 97-103.  The roads display field
(an unordered set of street names) is presentational and omitted. -/
structure Route where
  path : List ℕ
  distance_km : ℚ
  eta_min : ℚ
  risk : ℚ
deriving DecidableEq, Repr

/-- The sort key of evacuation_app.py line 107: the Python tuple
(risk, distance_km) compared lexicographically, ascending. -/
def routeLe (a b : Route) : Prop :=
  a.risk < b.risk ∨ (a.risk = b.risk ∧ a.distance_km ≤ b.distance_km)

instance : DecidableRel routeLe := fun a b =>
  inferInstanceAs (Decidable (a.risk < b.risk ∨ (a.risk = b.risk ∧ a.distance_km ≤ b.distance_km)))

instance : IsTotal Route routeLe := by
  constructor
  intro a b
  rcases lt_trichotomy a.risk b.risk with h | h | h
  · exact Or.inl (Or.inl h)
  · rcases le_total a.distance_km b.distance_km with hd | hd
    · exact Or.inl (Or.inr ⟨h, hd⟩)
    · exact Or.inr (Or.inr ⟨h.symm, hd⟩)
  · exact Or.inr (Or.inl h)

instance : IsTrans Route routeLe := by
  constructor
  intro a b c hab hbc
  rcases hab with h1 | ⟨h1, d1⟩
  · rcases hbc with h2 | ⟨h2, _⟩
    · exact Or.inl (h1.trans h2)
    · exact Or.inl (h2 ▸ h1)
  · rcases hbc with h2 | ⟨h2, d2⟩
    · exact Or.inl (h1 ▸ h2)
    · exact Or.inr ⟨h1.trans h2, d1.trans d2⟩

/-- The safe-area filter of evacuation_app.py line 76. -/
def isSafe (r : AreaRecord) : Bool :=
  strToLower r.flood_risk_level = "low" ∨ strToLower r.flood_risk_level = "minimal" ∨
    strToLower r.flood_risk_level = "safe"

/-- The safe destination nodes of evacuation_app.py lines 77-80: the nearest
graph node of every safe catalog row, in catalog order. -/
def safe_nodes (nearest_nodes : ℚ → ℚ → ℕ) (flood_df : List AreaRecord) : List ℕ :=
  (flood_df.filter (fun r => isSafe r)).map (fun r => nearest_nodes r.longitude r.latitude)

/-- get_two_safest_routes of evacuation_app.py (lines 62-110), parametric in
the similarity metric and in the road-graph operations: nearest_nodes (called
with longitude then latitude, as in ox.distance.nearest_nodes), shortest_path
(none models the NetworkX no-path exception, swallowed by the except/continue),
and the per-edge length and risk attribute lookups G[u][v][0].get.  Only the
first five safe nodes are considered (safe_nodes[:5]); the result is the two
best routes by (risk, distance).  The third component is none on a failed
match, mirroring the bare return None, None, None. -/
def get_two_safest_routes (metric : String → String → ℕ)
    (nearest_nodes : ℚ → ℚ → ℕ) (shortest_path : ℕ → ℕ → Option (List ℕ))
    (edge_length edge_risk : ℕ → ℕ → ℚ)
    (flood_df : List AreaRecord) (user_area : String) :
    Option String × Option ℕ × Option (List Route) :=
  match extractOne metric (strToLower user_area) (uniqueFirst (flood_df.map (fun r => r.areas))) with
  | none => (none, none, none)
  | some (best_match, score) =>
    if score < 60 then (none, none, none)
    else
      match flood_df.find? (fun r => r.areas = best_match) with
      | none => (none, none, none)
      | some start =>
        let orig_node := nearest_nodes start.longitude start.latitude
        let nodes := safe_nodes nearest_nodes flood_df
        if nodes.isEmpty then (some best_match, some score, some [])
        else
          let routes := (nodes.take 5).filterMap (fun dest_node =>
            (shortest_path orig_node dest_node).map (fun path =>
              let pairs := path.zip path.tail
              let length := pairs.foldl (fun acc p => acc + edge_length p.1 p.2) 0
              let risk := pairs.foldl (fun acc p => acc + edge_risk p.1 p.2) 0
              { path := path
                distance_km := length / 1000
                eta_min := length / 1000 / 30 * 60
                risk := risk }))
          (some best_match, some score, some ((routes.insertionSort routeLe).take 2))

end EvacApp

namespace Warp

/-- A region dict as used by map_regions_to_road_network in warp.py: a catalog
row with its (lowercase) flood risk level string. -/
structure Region where
  areas : String
  flood_risk_level : String
deriving DecidableEq, Repr

/-- The severity lookup of warp.py line 140-143:
risk_priority.get(level, 1) over the dict low 0, moderate 1, high 2,
severe 3, extreme 4 (default 1 for any other string). -/
def risk_priority (s : String) : ℕ :=
  if s = "low" then 0
  else if s = "moderate" then 1
  else if s = "high" then 2
  else if s = "severe" then 3
  else if s = "extreme" then 4
  else 1

/-- The edge-to-region assignment of warp.py lines 134-152 for a single edge,
given the (optional) region of each endpoint: with both endpoints assigned the
edge takes the endpoint region of higher risk priority (the u endpoint on
ties); with one endpoint assigned it takes that region; otherwise the edge is
left unassigned. -/
def edge_region (u_region v_region : Option Region) : Option Region :=
  match u_region, v_region with
  | some ur, some vr =>
      if risk_priority ur.flood_risk_level ≥ risk_priority vr.flood_risk_level
      then some ur else some vr
  | some ur, none => some ur
  | none, some vr => some vr
  | none, none => none

end Warp

namespace Tload

/-- The edge tagging of tload.py line 150: every edge row takes the region
index of its u endpoint (edges_gdf u column mapped through
nodeid_to_region_idx); the v endpoint is never consulted. -/
def edge_region_idx (nodeid_to_region_idx : ℕ → Option ℕ) (u v : ℕ) : Option ℕ :=
  nodeid_to_region_idx u

/-- The risk tagging of tload.py line 152: the region risk list indexed by the
edge region index, or the string unknown for an unassigned edge.  In the
source the index is always in range; the out-of-range default never fires. -/
def edge_risk_level (region_risks : List String)
    (nodeid_to_region_idx : ℕ → Option ℕ) (u v : ℕ) : String :=
  match edge_region_idx nodeid_to_region_idx u v with
  | some i => region_risks.getD i "unknown"
  | none => "unknown"

end Tload

namespace Complete

/-- The urgency multiplier dict of mumbai_evacuation_complete.py line 347:
Immediate 3, Urgent 2, Standard 1.5, Safe 1 (keyed by the start location
priority). -/
def urgency_multiplier : StreamlitApp.Priority → ℚ
  | .immediate => 3
  | .urgent => 2
  | .standard => 3/2
  | .safe => 1

/-- The composite score of mumbai_evacuation_complete.py lines 341-358:
route_score = (distance_km * 0.3
               - (current_risk_score - safety_score) * 2
               + (population_density / 100000) * 0.5) * urgency_multiplier,
with the risk scores of streamlit_app (the two files share the dict). -/
def route_score_of (current_risk dest_risk : StreamlitApp.Risk)
    (distance_km population_density : ℚ) (current_priority : StreamlitApp.Priority) : ℚ :=
  (distance_km * (3/10)
    - (StreamlitApp.risk_scores current_risk - StreamlitApp.risk_scores dest_risk) * 2
    + population_density / 100000 * (1/2)) * urgency_multiplier current_priority

end Complete

namespace Hav

open Real

/-- Degree-to-radian conversion, math.radians. -/
noncomputable def radians (x : ℝ) : ℝ := x * π / 180

/-- The haversine central-angle operand of app.py line 132:
a = sin(dlat/2)^2 + cos(lat1) * cos(lat2) * sin(dlon/2)^2 over radians. -/
noncomputable def hav_a (lat1 lon1 lat2 lon2 : ℝ) : ℝ :=
  sin ((radians lat2 - radians lat1) / 2) ^ 2 +
    cos (radians lat1) * cos (radians lat2) * sin ((radians lon2 - radians lon1) / 2) ^ 2

/-- The Haversine distance of app.py lines 126-134 (also
mumbai_evacuation_real.py lines 122-129): 6371 * (2 * asin(sqrt a)),
in kilometres. -/
noncomputable def haversine_km (lat1 lon1 lat2 lon2 : ℝ) : ℝ :=
  6371 * (2 * arcsin (Real.sqrt (hav_a lat1 lon1 lat2 lon2)))

/-- Quadrant-aware arctangent with the numpy arctan2 convention (used by
tload.py line 83), including arctan2 0 0 = 0. -/
noncomputable def arctan2 (y x : ℝ) : ℝ :=
  if 0 < x then arctan (y / x)
  else if x < 0 then (if 0 ≤ y then arctan (y / x) + π else arctan (y / x) - π)
  else (if 0 < y then π / 2 else if y < 0 then -(π / 2) else 0)

/-- haversine_m of tload.py lines 76-84: radius 6371000 metres, central angle
c = 2 * arctan2(sqrt a, sqrt (1 - a)).  Argument order is that of the source:
lon1 lat1 lon2 lat2. -/
noncomputable def haversine_m (lon1 lat1 lon2 lat2 : ℝ) : ℝ :=
  6371000 * (2 * arctan2 (Real.sqrt (hav_a lat1 lon1 lat2 lon2))
    (Real.sqrt (1 - hav_a lat1 lon1 lat2 lon2)))

end Hav


/-- Any route in the app.py output arises from a catalog row that passed the
safe-zone filters: risk Low or Medium and name distinct from the matched
start, which the result carries as its first component. -/
theorem App.app_out_mem (metric : String → String → ℕ) (d : ℚ → ℚ → ℚ → ℚ → ℚ)
    (df : List App.AreaRecord) (q : String) (r : App.Route)
    (h : r ∈ (App.calculate_evacuation_routes metric d df q).2.2) :
    ∃ best_match sa, sa ∈ df ∧
      (sa.flood_risk_level = .low ∨ sa.flood_risk_level = .medium) ∧
      sa.areas ≠ best_match ∧
      r.risk_level = sa.flood_risk_level ∧ r.destination = sa.areas ∧
      (App.calculate_evacuation_routes metric d df q).1 = some best_match := by
  unfold App.calculate_evacuation_routes at h ⊢
  cases hE : extractOne metric (strToLower q) (uniqueFirst (df.map (fun x => x.areas))) with
  | none => rw [hE] at h; simp at h
  | some p =>
    obtain ⟨best_match, score⟩ := p
    rw [hE] at h
    dsimp only at h ⊢
    by_cases hsc : score < 50
    · rw [if_pos hsc] at h; simp at h
    · rw [if_neg hsc] at h ⊢
      cases hF : df.find? (fun x => x.areas = best_match) with
      | none => rw [hF] at h; simp at h
      | some start_area =>
        rw [hF] at h
        dsimp only at h ⊢
        by_cases hEmp :
            ((df.filter (fun x =>
              x.flood_risk_level = .low ∨ x.flood_risk_level = .medium)).filter
              (fun x => x.areas ≠ best_match)).isEmpty
        · rw [if_pos hEmp] at h; simp at h
        · rw [if_neg hEmp] at h ⊢
          refine ⟨best_match, ?_⟩
          have h1 : r ∈ List.insertionSort App.routeLe _ := List.mem_of_mem_take h
          have h2 := (List.perm_insertionSort App.routeLe _).mem_iff.mp h1
          obtain ⟨sa, hsa, hr⟩ := List.mem_map.mp h2
          have hsa2 := List.mem_filter.mp hsa
          have hsa3 := List.mem_filter.mp hsa2.1
          exact ⟨sa, hsa3.1, by simpa using hsa3.2, by simpa using hsa2.2,
            by rw [← hr], by rw [← hr], by simp⟩

/-- Any route in the streamlit_app.py output arises from a catalog row that
passed the safe-zone filters: risk Low or Medium, name distinct from the
matched start, priority Safe or Standard. -/
theorem StreamlitApp.sl_out_mem (metric : String → String → ℕ) (d : ℚ → ℚ → ℚ → ℚ → ℚ)
    (df : List StreamlitApp.AreaRecord) (q : String) (r : StreamlitApp.Route)
    (h : r ∈ (StreamlitApp.calculate_evacuation_routes metric d df q).2.2) :
    ∃ best_match sa, sa ∈ df ∧
      (sa.flood_risk = .low ∨ sa.flood_risk = .medium) ∧
      sa.area_name ≠ best_match ∧
      (sa.evacuation_priority = .safe ∨ sa.evacuation_priority = .standard) ∧
      r.risk_level = sa.flood_risk ∧ r.destination = sa.area_name ∧
      (StreamlitApp.calculate_evacuation_routes metric d df q).1 = some best_match := by
  unfold StreamlitApp.calculate_evacuation_routes at h ⊢
  cases hE : extractOne metric (strToLower q) (uniqueFirst (df.map (fun x => x.area_name))) with
  | none => rw [hE] at h; simp at h
  | some p =>
    obtain ⟨best_match, score⟩ := p
    rw [hE] at h
    dsimp only at h ⊢
    by_cases hsc : score < 40
    · rw [if_pos hsc] at h; simp at h
    · rw [if_neg hsc] at h ⊢
      cases hF : df.find? (fun x => x.area_name = best_match) with
      | none => rw [hF] at h; simp at h
      | some current_location =>
        rw [hF] at h
        dsimp only at h ⊢
        by_cases hEmp :
            (df.filter (fun x =>
              (x.flood_risk = .low ∨ x.flood_risk = .medium) ∧
              x.area_name ≠ best_match ∧
              (x.evacuation_priority = .safe ∨ x.evacuation_priority = .standard))).isEmpty
        · rw [if_pos hEmp] at h; simp at h
        · rw [if_neg hEmp] at h ⊢
          refine ⟨best_match, ?_⟩
          have h1 : r ∈ List.insertionSort StreamlitApp.routeLe _ := List.mem_of_mem_take h
          have h2 := (List.perm_insertionSort StreamlitApp.routeLe _).mem_iff.mp h1
          obtain ⟨sa, hsa, hr⟩ := List.mem_map.mp h2
          have hsa2 := List.mem_filter.mp hsa
          obtain ⟨hrisk, hname, hprio⟩ : (sa.flood_risk = .low ∨ sa.flood_risk = .medium) ∧
              sa.area_name ≠ best_match ∧
              (sa.evacuation_priority = .safe ∨ sa.evacuation_priority = .standard) := by
            simpa using hsa2.2
          exact ⟨sa, hsa2.1, hrisk, hname, hprio,
            by rw [← hr], by rw [← hr], by simp⟩

/-- An exact-match similarity metric used to instantiate witnesses: 100 for an
exact string match, 0 otherwise (the degenerate end of the edit-distance ratio
family). -/
def eqMetric (q s : String) : ℕ := if q = s then 100 else 0

/-- A concrete executable stand-in for the scalar distance subroutine, used to
instantiate witnesses: the taxicab distance of the coordinate pairs. -/
def absDist (lat1 lon1 lat2 lon2 : ℚ) : ℚ := |lat2 - lat1| + |lon2 - lon1|

/-- Witness catalog for the app.py pipeline, the concrete scenario of the
specification: Colaba (High risk) and Churchgate (Low risk). -/
def appWitnessDf : List App.AreaRecord :=
  [ { ward_code := "A", areas := "colaba", latitude := 189151/10000,
      longitude := 728141/10000, flood_risk_level := .high },
    { ward_code := "C", areas := "churchgate", latitude := 189346/10000,
      longitude := 728284/10000, flood_risk_level := .low },
    { ward_code := "G/N", areas := "dadar", latitude := 190195/10000,
      longitude := 728436/10000, flood_risk_level := .medium } ]

instance : Inhabited App.Route :=
  ⟨{ destination := "", ward := "", destination_lat := 0, destination_lon := 0,
     distance_km := 0, eta_min := 0, risk_level := .low, combined_score := 0 }⟩

/-- Witness catalog for the streamlit_app.py pipeline. -/
def slWitnessDf : List StreamlitApp.AreaRecord :=
  [ { ward := "A", area_name := "colaba", latitude := 189151/10000,
      longitude := 728141/10000, flood_risk := .critical,
      evacuation_priority := .immediate, population_density := 25000 },
    { ward := "C", area_name := "churchgate", latitude := 189346/10000,
      longitude := 728284/10000, flood_risk := .low,
      evacuation_priority := .safe, population_density := 15000 },
    { ward := "G/N", area_name := "dadar", latitude := 190195/10000,
      longitude := 728436/10000, flood_risk := .medium,
      evacuation_priority := .standard, population_density := 30000 } ]

instance : Inhabited StreamlitApp.Route :=
  ⟨{ destination := "", ward := "", destination_lat := 0, destination_lon := 0,
     distance_km := 0, eta_minutes := 0, risk_level := .low,
     evacuation_priority := .safe, safety_improvement := 0, capacity_score := 0,
     route_score := 0, population_density := 0, transport := "" }⟩

/-- C1: in both the app.py and the streamlit_app.py rankers, every
RouteCandidate in the returned route list has flood risk at or below the safe
ceiling Low/Medium; a destination with risk strictly worse than the ceiling
never appears in the output. -/
theorem claim_C1_safety_filter :
    (∀ (metric : String → String → ℕ) (d : ℚ → ℚ → ℚ → ℚ → ℚ)
      (df : List App.AreaRecord) (q : String) (r : App.Route),
      r ∈ (App.calculate_evacuation_routes metric d df q).2.2 →
      r.risk_level = App.Risk.low ∨ r.risk_level = App.Risk.medium) ∧
    (∀ (metric : String → String → ℕ) (d : ℚ → ℚ → ℚ → ℚ → ℚ)
      (df : List StreamlitApp.AreaRecord) (q : String) (r : StreamlitApp.Route),
      r ∈ (StreamlitApp.calculate_evacuation_routes metric d df q).2.2 →
      r.risk_level = StreamlitApp.Risk.low ∨ r.risk_level = StreamlitApp.Risk.medium) := by
  constructor
  · intro metric d df q r h
    obtain ⟨bm, sa, _, hrisk, _, hlev, _, _⟩ := App.app_out_mem metric d df q r h
    rw [hlev]; exact hrisk
  · intro metric d df q r h
    obtain ⟨bm, sa, _, hrisk, _, _, hlev, _, _⟩ := StreamlitApp.sl_out_mem metric d df q r h
    rw [hlev]; exact hrisk

unseal Rat.add Rat.mul Rat.inv Rat.sub in
/-- Witness for C1: on the concrete Colaba/Churchgate catalogs both pipelines
return a nonempty route list whose head the theorem then bounds by the safe
ceiling. -/
theorem claim_C1_witness :
    ((App.calculate_evacuation_routes eqMetric absDist appWitnessDf "colaba").2.2.headI ∈
        (App.calculate_evacuation_routes eqMetric absDist appWitnessDf "colaba").2.2 ∧
      ((App.calculate_evacuation_routes eqMetric absDist appWitnessDf "colaba").2.2.headI.risk_level
          = App.Risk.low ∨
        (App.calculate_evacuation_routes eqMetric absDist appWitnessDf "colaba").2.2.headI.risk_level
          = App.Risk.medium)) ∧
    ((StreamlitApp.calculate_evacuation_routes eqMetric absDist slWitnessDf "colaba").2.2.headI ∈
        (StreamlitApp.calculate_evacuation_routes eqMetric absDist slWitnessDf "colaba").2.2 ∧
      ((StreamlitApp.calculate_evacuation_routes eqMetric absDist slWitnessDf "colaba").2.2.headI.risk_level
          = StreamlitApp.Risk.low ∨
        (StreamlitApp.calculate_evacuation_routes eqMetric absDist slWitnessDf "colaba").2.2.headI.risk_level
          = StreamlitApp.Risk.medium)) :=
  ⟨⟨by decide, claim_C1_safety_filter.1 eqMetric absDist appWitnessDf "colaba" _ (by decide)⟩,
   ⟨by decide, claim_C1_safety_filter.2 eqMetric absDist slWitnessDf "colaba" _ (by decide)⟩⟩

unseal Rat.add Rat.mul Rat.inv Rat.sub in
/-- Counterexample to C2 as stated: in calculate_simple_routes of
evacuation_app_simple.py the start location is NOT excluded from the safe
candidate set.  On the inline sample catalog the query fort resolves to fort
itself (a Low-risk area), and the returned route list consists of the start
as its own destination, at distance zero. -/
theorem claim_C2_counterexample :
    (Simple.calculate_simple_routes eqMetric absDist Simple.sample_flood_df "fort").1
        = some "fort" ∧
    ((Simple.calculate_simple_routes eqMetric absDist Simple.sample_flood_df "fort").2.2.map
        (fun r => r.destination)) = ["fort"] := by
  constructor
  · decide
  · decide

/-- C2 amended: in app.py and streamlit_app.py the resolved start location
never appears as a destination in the returned route list (the filters drop
the row whose name equals the fuzzy match); calculate_simple_routes of
evacuation_app_simple.py lacks this exclusion and can return the start as its
own destination. -/
theorem claim_C2_amended :
    (∀ (metric : String → String → ℕ) (d : ℚ → ℚ → ℚ → ℚ → ℚ)
      (df : List App.AreaRecord) (q best_match : String) (r : App.Route),
      (App.calculate_evacuation_routes metric d df q).1 = some best_match →
      r ∈ (App.calculate_evacuation_routes metric d df q).2.2 →
      r.destination ≠ best_match) ∧
    (∀ (metric : String → String → ℕ) (d : ℚ → ℚ → ℚ → ℚ → ℚ)
      (df : List StreamlitApp.AreaRecord) (q best_match : String) (r : StreamlitApp.Route),
      (StreamlitApp.calculate_evacuation_routes metric d df q).1 = some best_match →
      r ∈ (StreamlitApp.calculate_evacuation_routes metric d df q).2.2 →
      r.destination ≠ best_match) := by
  constructor
  · intro metric d df q best_match r h1 h
    obtain ⟨bm, sa, _, _, hne, _, hdest, hfst⟩ := App.app_out_mem metric d df q r h
    rw [h1] at hfst
    obtain rfl : best_match = bm := by simpa using hfst
    rw [hdest]; exact hne
  · intro metric d df q best_match r h1 h
    obtain ⟨bm, sa, _, _, hne, _, _, hdest, hfst⟩ := StreamlitApp.sl_out_mem metric d df q r h
    rw [h1] at hfst
    obtain rfl : best_match = bm := by simpa using hfst
    rw [hdest]; exact hne

unseal Rat.add Rat.mul Rat.inv Rat.sub in
/-- Witness for the amended C2 on the concrete catalogs: the returned head
route in each pipeline has a destination different from the matched start. -/
theorem claim_C2_witness :
    ((App.calculate_evacuation_routes eqMetric absDist appWitnessDf "colaba").1 = some "colaba" ∧
      (App.calculate_evacuation_routes eqMetric absDist appWitnessDf "colaba").2.2.headI ∈
        (App.calculate_evacuation_routes eqMetric absDist appWitnessDf "colaba").2.2 ∧
      (App.calculate_evacuation_routes eqMetric absDist appWitnessDf "colaba").2.2.headI.destination
        ≠ "colaba") ∧
    ((StreamlitApp.calculate_evacuation_routes eqMetric absDist slWitnessDf "colaba").1
        = some "colaba" ∧
      (StreamlitApp.calculate_evacuation_routes eqMetric absDist slWitnessDf "colaba").2.2.headI ∈
        (StreamlitApp.calculate_evacuation_routes eqMetric absDist slWitnessDf "colaba").2.2 ∧
      (StreamlitApp.calculate_evacuation_routes eqMetric absDist slWitnessDf "colaba").2.2.headI.destination
        ≠ "colaba") :=
  ⟨⟨by decide, by decide,
    claim_C2_amended.1 eqMetric absDist appWitnessDf "colaba" "colaba" _ (by decide) (by decide)⟩,
   ⟨by decide, by decide,
    claim_C2_amended.2 eqMetric absDist slWitnessDf "colaba" "colaba" _ (by decide) (by decide)⟩⟩

/-- The app.py route list is sorted ascending by combined_score and holds at
most three routes, in every branch of the pipeline. -/
theorem App.app_out_sorted (metric : String → String → ℕ) (d : ℚ → ℚ → ℚ → ℚ → ℚ)
    (df : List App.AreaRecord) (q : String) :
    ((App.calculate_evacuation_routes metric d df q).2.2).Sorted App.routeLe ∧
    ((App.calculate_evacuation_routes metric d df q).2.2).length ≤ 3 := by
  unfold App.calculate_evacuation_routes
  cases hE : extractOne metric (strToLower q) (uniqueFirst (df.map (fun x => x.areas))) with
  | none => simp
  | some p =>
    obtain ⟨best_match, score⟩ := p
    dsimp only
    by_cases hsc : score < 50
    · rw [if_pos hsc]; simp
    · rw [if_neg hsc]
      cases hF : df.find? (fun x => x.areas = best_match) with
      | none => simp
      | some start_area =>
        dsimp only
        by_cases hEmp :
            ((df.filter (fun x =>
              x.flood_risk_level = .low ∨ x.flood_risk_level = .medium)).filter
              (fun x => x.areas ≠ best_match)).isEmpty
        · rw [if_pos hEmp]; simp
        · rw [if_neg hEmp]
          exact ⟨(List.sorted_insertionSort App.routeLe _).sublist (List.take_sublist _ _),
            List.length_take_le 3 _⟩

/-- The streamlit_app.py route list is sorted ascending by route_score and
holds at most five routes. -/
theorem StreamlitApp.sl_out_sorted (metric : String → String → ℕ) (d : ℚ → ℚ → ℚ → ℚ → ℚ)
    (df : List StreamlitApp.AreaRecord) (q : String) :
    ((StreamlitApp.calculate_evacuation_routes metric d df q).2.2).Sorted StreamlitApp.routeLe ∧
    ((StreamlitApp.calculate_evacuation_routes metric d df q).2.2).length ≤ 5 := by
  unfold StreamlitApp.calculate_evacuation_routes
  cases hE : extractOne metric (strToLower q) (uniqueFirst (df.map (fun x => x.area_name))) with
  | none => simp
  | some p =>
    obtain ⟨best_match, score⟩ := p
    dsimp only
    by_cases hsc : score < 40
    · rw [if_pos hsc]; simp
    · rw [if_neg hsc]
      cases hF : df.find? (fun x => x.area_name = best_match) with
      | none => simp
      | some current_location =>
        dsimp only
        by_cases hEmp :
            (df.filter (fun x =>
              (x.flood_risk = .low ∨ x.flood_risk = .medium) ∧
              x.area_name ≠ best_match ∧
              (x.evacuation_priority = .safe ∨ x.evacuation_priority = .standard))).isEmpty
        · rw [if_pos hEmp]; simp
        · rw [if_neg hEmp]
          exact ⟨(List.sorted_insertionSort StreamlitApp.routeLe _).sublist
            (List.take_sublist _ _), List.length_take_le 5 _⟩

/-- The evacuation_app_simple.py route list is sorted ascending by distance
and holds at most two routes. -/
theorem Simple.simple_out_sorted (metric : String → String → ℕ) (d : ℚ → ℚ → ℚ → ℚ → ℚ)
    (df : List Simple.AreaRecord) (q : String) :
    ((Simple.calculate_simple_routes metric d df q).2.2).Sorted Simple.routeLe ∧
    ((Simple.calculate_simple_routes metric d df q).2.2).length ≤ 2 := by
  unfold Simple.calculate_simple_routes
  cases hE : extractOne metric (strToLower q) (uniqueFirst (df.map (fun x => x.areas))) with
  | none => simp
  | some p =>
    obtain ⟨best_match, score⟩ := p
    dsimp only
    by_cases hsc : score < 60
    · rw [if_pos hsc]; simp
    · rw [if_neg hsc]
      cases hF : df.find? (fun x => x.areas = best_match) with
      | none => simp
      | some start =>
        dsimp only
        by_cases hEmp : (df.filter (fun x => Simple.isSafe x)).isEmpty
        · rw [if_pos hEmp]; simp
        · rw [if_neg hEmp]
          exact ⟨(List.sorted_insertionSort Simple.routeLe _).sublist
            (List.take_sublist _ _), List.length_take_le 2 _⟩

/-- Witness catalog for the simplified variant: a Moderate-risk start and
three Low-risk destinations. -/
def simpleWitnessDf : List Simple.AreaRecord :=
  [ { ward_code := "F", areas := "fort", latitude := 189354/10000,
      longitude := 728354/10000, flood_risk_level := "Moderate" },
    { ward_code := "C", areas := "churchgate", latitude := 189346/10000,
      longitude := 728284/10000, flood_risk_level := "Low" },
    { ward_code := "G/N", areas := "dadar", latitude := 190195/10000,
      longitude := 728436/10000, flood_risk_level := "Low" },
    { ward_code := "T", areas := "mulund west", latitude := 191741/10000,
      longitude := 729592/10000, flood_risk_level := "Low" } ]

/-- C3: every route list returned by a ranker is sorted ascending by its
composite score (adjacent scores are nondecreasing) and its length is bounded
by the variant top-K: 3 for app.py, 5 for streamlit_app.py, 2 for the
simplified variant (whose score is the distance it sorts by). -/
theorem claim_C3_ranking :
    (∀ (metric : String → String → ℕ) (d : ℚ → ℚ → ℚ → ℚ → ℚ)
      (df : List App.AreaRecord) (q : String) (i : ℕ)
      (h : i + 1 < ((App.calculate_evacuation_routes metric d df q).2.2).length),
      (((App.calculate_evacuation_routes metric d df q).2.2).get
          ⟨i, Nat.lt_of_succ_lt h⟩).combined_score ≤
        (((App.calculate_evacuation_routes metric d df q).2.2).get ⟨i + 1, h⟩).combined_score) ∧
    (∀ (metric : String → String → ℕ) (d : ℚ → ℚ → ℚ → ℚ → ℚ)
      (df : List App.AreaRecord) (q : String),
      ((App.calculate_evacuation_routes metric d df q).2.2).length ≤ 3) ∧
    (∀ (metric : String → String → ℕ) (d : ℚ → ℚ → ℚ → ℚ → ℚ)
      (df : List StreamlitApp.AreaRecord) (q : String) (i : ℕ)
      (h : i + 1 < ((StreamlitApp.calculate_evacuation_routes metric d df q).2.2).length),
      (((StreamlitApp.calculate_evacuation_routes metric d df q).2.2).get
          ⟨i, Nat.lt_of_succ_lt h⟩).route_score ≤
        (((StreamlitApp.calculate_evacuation_routes metric d df q).2.2).get
          ⟨i + 1, h⟩).route_score) ∧
    (∀ (metric : String → String → ℕ) (d : ℚ → ℚ → ℚ → ℚ → ℚ)
      (df : List StreamlitApp.AreaRecord) (q : String),
      ((StreamlitApp.calculate_evacuation_routes metric d df q).2.2).length ≤ 5) ∧
    (∀ (metric : String → String → ℕ) (d : ℚ → ℚ → ℚ → ℚ → ℚ)
      (df : List Simple.AreaRecord) (q : String) (i : ℕ)
      (h : i + 1 < ((Simple.calculate_simple_routes metric d df q).2.2).length),
      (((Simple.calculate_simple_routes metric d df q).2.2).get
          ⟨i, Nat.lt_of_succ_lt h⟩).distance_km ≤
        (((Simple.calculate_simple_routes metric d df q).2.2).get ⟨i + 1, h⟩).distance_km) ∧
    (∀ (metric : String → String → ℕ) (d : ℚ → ℚ → ℚ → ℚ → ℚ)
      (df : List Simple.AreaRecord) (q : String),
      ((Simple.calculate_simple_routes metric d df q).2.2).length ≤ 2) := by
  refine ⟨?_, ?_, ?_, ?_, ?_, ?_⟩
  · intro metric d df q i h
    exact (App.app_out_sorted metric d df q).1.rel_get_of_lt (by simp)
  · intro metric d df q
    exact (App.app_out_sorted metric d df q).2
  · intro metric d df q i h
    exact (StreamlitApp.sl_out_sorted metric d df q).1.rel_get_of_lt (by simp)
  · intro metric d df q
    exact (StreamlitApp.sl_out_sorted metric d df q).2
  · intro metric d df q i h
    exact (Simple.simple_out_sorted metric d df q).1.rel_get_of_lt (by simp)
  · intro metric d df q
    exact (Simple.simple_out_sorted metric d df q).2

unseal Rat.add Rat.mul Rat.inv Rat.sub in
/-- Witness for C3: on the concrete catalogs each pipeline returns two routes,
and the adjacent-score inequality is discharged at position zero. -/
theorem claim_C3_witness :
    (0 + 1 < ((App.calculate_evacuation_routes eqMetric absDist appWitnessDf "colaba").2.2).length ∧
      (((App.calculate_evacuation_routes eqMetric absDist appWitnessDf "colaba").2.2).get
          ⟨0, by decide⟩).combined_score ≤
        (((App.calculate_evacuation_routes eqMetric absDist appWitnessDf "colaba").2.2).get
          ⟨1, by decide⟩).combined_score) ∧
    (0 + 1 <
        ((StreamlitApp.calculate_evacuation_routes eqMetric absDist slWitnessDf "colaba").2.2).length ∧
      (((StreamlitApp.calculate_evacuation_routes eqMetric absDist slWitnessDf "colaba").2.2).get
          ⟨0, by decide⟩).route_score ≤
        (((StreamlitApp.calculate_evacuation_routes eqMetric absDist slWitnessDf "colaba").2.2).get
          ⟨1, by decide⟩).route_score) ∧
    (0 + 1 < ((Simple.calculate_simple_routes eqMetric absDist simpleWitnessDf "fort").2.2).length ∧
      (((Simple.calculate_simple_routes eqMetric absDist simpleWitnessDf "fort").2.2).get
          ⟨0, by decide⟩).distance_km ≤
        (((Simple.calculate_simple_routes eqMetric absDist simpleWitnessDf "fort").2.2).get
          ⟨1, by decide⟩).distance_km) :=
  ⟨⟨by decide, claim_C3_ranking.1 eqMetric absDist appWitnessDf "colaba" 0 (by decide)⟩,
   ⟨by decide, claim_C3_ranking.2.2.1 eqMetric absDist slWitnessDf "colaba" 0 (by decide)⟩,
   ⟨by decide, claim_C3_ranking.2.2.2.2.1 eqMetric absDist simpleWitnessDf "fort" 0 (by decide)⟩⟩

/-- The fuzzy match is always drawn from the catalog, so the row lookup by
matched name always succeeds. -/
theorem find_of_extract {α : Type} (name : α → String) (df : List α)
    (metric : String → String → ℕ) (q bm : String) (s : ℕ)
    (hE : extractOne metric q (uniqueFirst (df.map name)) = some (bm, s)) :
    (df.find? (fun x => name x = bm)).isSome := by
  have h1 : bm ∈ uniqueFirst (df.map name) := extractOne_mem metric q _ bm s hE
  have h2 : bm ∈ df.map name := uniqueFirst_subset _ bm h1
  obtain ⟨a, ha, rfl⟩ := List.mem_map.mp h2
  rw [List.find?_isSome]
  exact ⟨a, ha, by simp⟩

/-- C4: in app.py (threshold 50) and streamlit_app.py (threshold 40) the
rejection test is score < threshold, so a best fuzzy-match score equal to the
threshold is accepted (the result carries the matched start and confidence)
while a score strictly below it yields the no-match outcome (None, None, []). -/
theorem claim_C4_threshold :
    (∀ (metric : String → String → ℕ) (d : ℚ → ℚ → ℚ → ℚ → ℚ)
      (df : List App.AreaRecord) (q bm : String) (s : ℕ),
      extractOne metric (strToLower q) (uniqueFirst (df.map (fun x => x.areas))) = some (bm, s) →
      s = 50 →
      (App.calculate_evacuation_routes metric d df q).1 = some bm ∧
      (App.calculate_evacuation_routes metric d df q).2.1 = some s) ∧
    (∀ (metric : String → String → ℕ) (d : ℚ → ℚ → ℚ → ℚ → ℚ)
      (df : List App.AreaRecord) (q bm : String) (s : ℕ),
      extractOne metric (strToLower q) (uniqueFirst (df.map (fun x => x.areas))) = some (bm, s) →
      s < 50 →
      App.calculate_evacuation_routes metric d df q = (none, none, [])) ∧
    (∀ (metric : String → String → ℕ) (d : ℚ → ℚ → ℚ → ℚ → ℚ)
      (df : List StreamlitApp.AreaRecord) (q bm : String) (s : ℕ),
      extractOne metric (strToLower q) (uniqueFirst (df.map (fun x => x.area_name)))
        = some (bm, s) →
      s = 40 →
      (StreamlitApp.calculate_evacuation_routes metric d df q).1 = some bm ∧
      (StreamlitApp.calculate_evacuation_routes metric d df q).2.1 = some s) ∧
    (∀ (metric : String → String → ℕ) (d : ℚ → ℚ → ℚ → ℚ → ℚ)
      (df : List StreamlitApp.AreaRecord) (q bm : String) (s : ℕ),
      extractOne metric (strToLower q) (uniqueFirst (df.map (fun x => x.area_name)))
        = some (bm, s) →
      s < 40 →
      StreamlitApp.calculate_evacuation_routes metric d df q = (none, none, [])) := by
  refine ⟨?_, ?_, ?_, ?_⟩
  · intro metric d df q bm s hE hs
    subst hs
    unfold App.calculate_evacuation_routes
    rw [hE]
    dsimp only
    rw [if_neg (by omega)]
    cases hF : df.find? (fun x => x.areas = bm) with
    | none =>
      have := find_of_extract (fun x => x.areas) df metric (strToLower q) bm 50 hE
      rw [hF] at this
      simp at this
    | some start_area =>
      dsimp only
      by_cases hEmp :
          ((df.filter (fun x =>
            x.flood_risk_level = .low ∨ x.flood_risk_level = .medium)).filter
            (fun x => x.areas ≠ bm)).isEmpty
      · rw [if_pos hEmp]; exact ⟨rfl, rfl⟩
      · rw [if_neg hEmp]; exact ⟨rfl, rfl⟩
  · intro metric d df q bm s hE hs
    unfold App.calculate_evacuation_routes
    rw [hE]
    dsimp only
    rw [if_pos hs]
  · intro metric d df q bm s hE hs
    subst hs
    unfold StreamlitApp.calculate_evacuation_routes
    rw [hE]
    dsimp only
    rw [if_neg (by omega)]
    cases hF : df.find? (fun x => x.area_name = bm) with
    | none =>
      have := find_of_extract (fun x => x.area_name) df metric (strToLower q) bm 40 hE
      rw [hF] at this
      simp at this
    | some current_location =>
      dsimp only
      by_cases hEmp :
          (df.filter (fun x =>
            (x.flood_risk = .low ∨ x.flood_risk = .medium) ∧
            x.area_name ≠ bm ∧
            (x.evacuation_priority = .safe ∨ x.evacuation_priority = .standard))).isEmpty
      · rw [if_pos hEmp]; exact ⟨rfl, rfl⟩
      · rw [if_neg hEmp]; exact ⟨rfl, rfl⟩
  · intro metric d df q bm s hE hs
    unfold StreamlitApp.calculate_evacuation_routes
    rw [hE]
    dsimp only
    rw [if_pos hs]

/-- A constant similarity metric, used to hit the threshold boundary exactly
in witnesses. -/
def constMetric (n : ℕ) : String → String → ℕ := fun _ _ => n

/-- Witness for C4: a best score exactly at the threshold (via a constant
metric) is accepted by both pipelines, one point below is rejected. -/
theorem claim_C4_witness :
    ((App.calculate_evacuation_routes (constMetric 50) absDist appWitnessDf "colaba").1
        = some "colaba" ∧
      (App.calculate_evacuation_routes (constMetric 50) absDist appWitnessDf "colaba").2.1
        = some 50) ∧
    App.calculate_evacuation_routes (constMetric 49) absDist appWitnessDf "colaba"
      = (none, none, []) ∧
    ((StreamlitApp.calculate_evacuation_routes (constMetric 40) absDist slWitnessDf "colaba").1
        = some "colaba" ∧
      (StreamlitApp.calculate_evacuation_routes (constMetric 40) absDist slWitnessDf "colaba").2.1
        = some 40) ∧
    StreamlitApp.calculate_evacuation_routes (constMetric 39) absDist slWitnessDf "colaba"
      = (none, none, []) :=
  ⟨claim_C4_threshold.1 (constMetric 50) absDist appWitnessDf "colaba" "colaba" 50
      (by decide) rfl,
   claim_C4_threshold.2.1 (constMetric 49) absDist appWitnessDf "colaba" "colaba" 49
      (by decide) (by decide),
   claim_C4_threshold.2.2.1 (constMetric 40) absDist slWitnessDf "colaba" "colaba" 40
      (by decide) rfl,
   claim_C4_threshold.2.2.2 (constMetric 39) absDist slWitnessDf "colaba" "colaba" 39
      (by decide) (by decide)⟩

/-- C5: the two failure outcomes of app.py are always distinguishable.  A best
match below the threshold yields the null-match triple (None, None, []); a
resolved query always carries its matched name and confidence, and when its
eligible-destination set is empty the route list is empty while the match is
still present; a resolved query never carries the null-match marker. -/
theorem claim_C5_outcomes :
    (∀ (metric : String → String → ℕ) (d : ℚ → ℚ → ℚ → ℚ → ℚ)
      (df : List App.AreaRecord) (q bm : String) (s : ℕ),
      extractOne metric (strToLower q) (uniqueFirst (df.map (fun x => x.areas))) = some (bm, s) →
      s < 50 →
      App.calculate_evacuation_routes metric d df q = (none, none, [])) ∧
    (∀ (metric : String → String → ℕ) (d : ℚ → ℚ → ℚ → ℚ → ℚ)
      (df : List App.AreaRecord) (q bm : String) (s : ℕ),
      extractOne metric (strToLower q) (uniqueFirst (df.map (fun x => x.areas))) = some (bm, s) →
      ¬ s < 50 →
      ((df.filter (fun x =>
        x.flood_risk_level = .low ∨ x.flood_risk_level = .medium)).filter
        (fun x => x.areas ≠ bm)).isEmpty →
      App.calculate_evacuation_routes metric d df q = (some bm, some s, [])) ∧
    (∀ (metric : String → String → ℕ) (d : ℚ → ℚ → ℚ → ℚ → ℚ)
      (df : List App.AreaRecord) (q bm : String) (s : ℕ),
      extractOne metric (strToLower q) (uniqueFirst (df.map (fun x => x.areas))) = some (bm, s) →
      ¬ s < 50 →
      (App.calculate_evacuation_routes metric d df q).1 = some bm ∧
      (App.calculate_evacuation_routes metric d df q).2.1 = some s) := by
  refine ⟨?_, ?_, ?_⟩
  · intro metric d df q bm s hE hs
    unfold App.calculate_evacuation_routes
    rw [hE]
    dsimp only
    rw [if_pos hs]
  · intro metric d df q bm s hE hs hEmp
    unfold App.calculate_evacuation_routes
    rw [hE]
    dsimp only
    rw [if_neg hs]
    cases hF : df.find? (fun x => x.areas = bm) with
    | none =>
      have := find_of_extract (fun x => x.areas) df metric (strToLower q) bm s hE
      rw [hF] at this
      simp at this
    | some start_area =>
      dsimp only
      rw [if_pos hEmp]
  · intro metric d df q bm s hE hs
    unfold App.calculate_evacuation_routes
    rw [hE]
    dsimp only
    rw [if_neg hs]
    cases hF : df.find? (fun x => x.areas = bm) with
    | none =>
      have := find_of_extract (fun x => x.areas) df metric (strToLower q) bm s hE
      rw [hF] at this
      simp at this
    | some start_area =>
      dsimp only
      by_cases hEmp :
          ((df.filter (fun x =>
            x.flood_risk_level = .low ∨ x.flood_risk_level = .medium)).filter
            (fun x => x.areas ≠ bm)).isEmpty
      · rw [if_pos hEmp]; exact ⟨rfl, rfl⟩
      · rw [if_neg hEmp]; exact ⟨rfl, rfl⟩

/-- Catalog with a single High-risk area: its own query resolves but leaves no
eligible destination. -/
def noSafeDf : List App.AreaRecord :=
  [ { ward_code := "A", areas := "colaba", latitude := 189151/10000,
      longitude := 728141/10000, flood_risk_level := .high } ]

/-- Witness for C5: an unrecognized query yields the null-match triple; the
one-entry catalog resolves its own name and yields the matched name with an
empty route list; a resolved query carries its match. -/
theorem claim_C5_witness :
    App.calculate_evacuation_routes eqMetric absDist appWitnessDf "xyzzynotaplace"
      = (none, none, []) ∧
    App.calculate_evacuation_routes eqMetric absDist noSafeDf "colaba"
      = (some "colaba", some 100, []) ∧
    ((App.calculate_evacuation_routes eqMetric absDist appWitnessDf "colaba").1
        = some "colaba" ∧
      (App.calculate_evacuation_routes eqMetric absDist appWitnessDf "colaba").2.1
        = some 100) :=
  ⟨claim_C5_outcomes.1 eqMetric absDist appWitnessDf "xyzzynotaplace" "colaba" 0
      (by decide) (by decide),
   claim_C5_outcomes.2.1 eqMetric absDist noSafeDf "colaba" "colaba" 100
      (by decide) (by decide) (by decide),
   claim_C5_outcomes.2.2 eqMetric absDist appWitnessDf "colaba" "colaba" 100
      (by decide) (by decide)⟩

/-- C6: sign convention of the composite route scores.  In the
streamlit_app.py score, greater distance strictly raises the score and
greater safety improvement (start risk severity minus destination risk
severity) strictly lowers it; in the mumbai_evacuation_complete.py score,
greater destination population density strictly raises the score (under every
start urgency); in the app.py combined score, greater distance strictly
raises it. -/
theorem claim_C6_sign_convention :
    (∀ (cur dest : StreamlitApp.Risk) (d1 d2 : ℚ), d1 < d2 →
      StreamlitApp.route_score_of cur dest d1 < StreamlitApp.route_score_of cur dest d2) ∧
    (∀ (cur1 dest1 cur2 dest2 : StreamlitApp.Risk) (d : ℚ),
      StreamlitApp.risk_scores cur1 - StreamlitApp.risk_scores dest1 <
        StreamlitApp.risk_scores cur2 - StreamlitApp.risk_scores dest2 →
      StreamlitApp.route_score_of cur2 dest2 d < StreamlitApp.route_score_of cur1 dest1 d) ∧
    (∀ (cur dest : StreamlitApp.Risk) (d dens1 dens2 : ℚ) (prio : StreamlitApp.Priority),
      dens1 < dens2 →
      Complete.route_score_of cur dest d dens1 prio <
        Complete.route_score_of cur dest d dens2 prio) ∧
    (∀ (risk : App.Risk) (d1 d2 : ℚ), d1 < d2 →
      App.risk_score risk * 2 + d1 * (1/2) < App.risk_score risk * 2 + d2 * (1/2)) := by
  refine ⟨?_, ?_, ?_, ?_⟩
  · intro cur dest d1 d2 h
    unfold StreamlitApp.route_score_of
    linarith
  · intro cur1 dest1 cur2 dest2 d h
    unfold StreamlitApp.route_score_of
    linarith
  · intro cur dest d dens1 dens2 prio h
    cases prio <;>
      (unfold Complete.route_score_of Complete.urgency_multiplier; nlinarith [h])
  · intro risk d1 d2 h
    linarith

/-- Witness for C6: each sign-convention inequality discharged at concrete
scores, distances and densities. -/
theorem claim_C6_witness :
    ((1:ℚ) < 2 ∧
      StreamlitApp.route_score_of .critical .low 1 < StreamlitApp.route_score_of .critical .low 2) ∧
    (StreamlitApp.risk_scores .medium - StreamlitApp.risk_scores .medium <
        StreamlitApp.risk_scores .critical - StreamlitApp.risk_scores .low ∧
      StreamlitApp.route_score_of .critical .low 3 < StreamlitApp.route_score_of .medium .medium 3) ∧
    ((15000:ℚ) < 30000 ∧
      Complete.route_score_of .high .low 4 15000 .immediate <
        Complete.route_score_of .high .low 4 30000 .immediate) ∧
    ((1:ℚ) < 2 ∧
      App.risk_score .medium * 2 + 1 * (1/2) < App.risk_score .medium * 2 + 2 * (1/2)) :=
  ⟨⟨by norm_num, claim_C6_sign_convention.1 .critical .low 1 2 (by norm_num)⟩,
   ⟨by norm_num [StreamlitApp.risk_scores],
    claim_C6_sign_convention.2.1 .medium .medium .critical .low 3
      (by norm_num [StreamlitApp.risk_scores])⟩,
   ⟨by norm_num, claim_C6_sign_convention.2.2.1 .high .low 4 15000 30000 .immediate (by norm_num)⟩,
   ⟨by norm_num, claim_C6_sign_convention.2.2.2 .medium 1 2 (by norm_num)⟩⟩

/-- Squared sine of a half-difference is symmetric in its endpoints. -/
theorem sin_sq_half_symm (x y : ℝ) : Real.sin ((x - y) / 2) ^ 2 = Real.sin ((y - x) / 2) ^ 2 := by
  rw [show (x - y) / 2 = -((y - x) / 2) by ring, Real.sin_neg]
  ring

/-- The haversine operand is symmetric under swapping the two coordinates. -/
theorem Hav.hav_a_symm (lat1 lon1 lat2 lon2 : ℝ) :
    Hav.hav_a lat1 lon1 lat2 lon2 = Hav.hav_a lat2 lon2 lat1 lon1 := by
  unfold Hav.hav_a
  rw [sin_sq_half_symm (Hav.radians lat2) (Hav.radians lat1),
    sin_sq_half_symm (Hav.radians lon2) (Hav.radians lon1)]
  ring

/-- The haversine operand vanishes on the diagonal. -/
theorem Hav.hav_a_self (lat lon : ℝ) : Hav.hav_a lat lon lat lon = 0 := by
  unfold Hav.hav_a
  simp

/-- C7: the Haversine distance is symmetric and zero on identical
coordinates, both for the kilometre form of app.py (asin) and for the metre
form of tload.py (arctan2). -/
theorem claim_C7_haversine :
    (∀ lat1 lon1 lat2 lon2 : ℝ,
      Hav.haversine_km lat1 lon1 lat2 lon2 = Hav.haversine_km lat2 lon2 lat1 lon1) ∧
    (∀ lat lon : ℝ, Hav.haversine_km lat lon lat lon = 0) ∧
    (∀ lon1 lat1 lon2 lat2 : ℝ,
      Hav.haversine_m lon1 lat1 lon2 lat2 = Hav.haversine_m lon2 lat2 lon1 lat1) ∧
    (∀ lon lat : ℝ, Hav.haversine_m lon lat lon lat = 0) := by
  refine ⟨?_, ?_, ?_, ?_⟩
  · intro lat1 lon1 lat2 lon2
    unfold Hav.haversine_km
    rw [Hav.hav_a_symm]
  · intro lat lon
    unfold Hav.haversine_km
    rw [Hav.hav_a_self]
    simp
  · intro lon1 lat1 lon2 lat2
    unfold Hav.haversine_m
    rw [Hav.hav_a_symm]
  · intro lon lat
    unfold Hav.haversine_m
    rw [Hav.hav_a_self]
    rw [show (1:ℝ) - 0 = 1 by ring]
    simp [Hav.arctan2]

/-- C8: an empty or whitespace-only query short-circuits at the app.py button
handler to the empty-input error outcome, before the similarity metric is
ever consulted: the outcome is the no-route, no-match error path and is
independent of the metric and of the distance subroutine. -/
theorem claim_C8_empty_query
    (metric metric2 : String → String → ℕ) (d d2 : ℚ → ℚ → ℚ → ℚ → ℚ)
    (df : List App.AreaRecord) (q : String) (h : strTrim q = "") :
    App.find_routes_button metric d df q = App.ButtonOutcome.emptyInputError ∧
    App.find_routes_button metric d df q = App.find_routes_button metric2 d2 df q ∧
    ∀ (b : Option String) (s : Option ℕ) (rl : List App.Route),
      App.find_routes_button metric d df q ≠ App.ButtonOutcome.computed b s rl := by
  have h1 : App.find_routes_button metric d df q = App.ButtonOutcome.emptyInputError := by
    unfold App.find_routes_button
    rw [if_pos h]
  have h2 : App.find_routes_button metric2 d2 df q = App.ButtonOutcome.emptyInputError := by
    unfold App.find_routes_button
    rw [if_pos h]
  refine ⟨h1, h1.trans h2.symm, ?_⟩
  intro b s rl
  rw [h1]
  exact fun hc => App.ButtonOutcome.noConfusion hc

/-- Witness for C8: the whitespace-only query.  It is rejected without any
match, and the outcome does not change when the metric is replaced by a
constant one claiming a perfect score. -/
theorem claim_C8_witness :
    strTrim "   " = "" ∧
    App.find_routes_button eqMetric absDist appWitnessDf "   "
      = App.ButtonOutcome.emptyInputError ∧
    App.find_routes_button eqMetric absDist appWitnessDf "   "
      = App.find_routes_button (constMetric 100) absDist appWitnessDf "   " :=
  ⟨by decide,
   (claim_C8_empty_query eqMetric (constMetric 100) absDist absDist appWitnessDf "   "
      (by decide)).1,
   (claim_C8_empty_query eqMetric (constMetric 100) absDist absDist appWitnessDf "   "
      (by decide)).2.1⟩

/-- Concrete node-to-region assignment for the C9 counterexample: node 0 lies
in region 0, every other node in region 1. -/
def cexAssign : ℕ → Option ℕ := fun n => if n = 0 then some 0 else some 1

/-- Counterexample to C9 as stated: tload.py tags every edge with the region
of its u endpoint only.  With region 0 of risk low and region 1 of risk high,
the edge (0, 1) joins endpoints of different regions, the v endpoint has the
strictly higher severity, and yet the edge is tagged with region 0 and risk
low, not with the higher-severity endpoint region. -/
theorem claim_C9_counterexample :
    cexAssign 0 = some 0 ∧ cexAssign 1 = some 1 ∧ (0 : ℕ) ≠ 1 ∧
    Warp.risk_priority "high" > Warp.risk_priority "low" ∧
    Tload.edge_region_idx cexAssign 0 1 = some 0 ∧
    Tload.edge_region_idx cexAssign 0 1 ≠ some 1 ∧
    Tload.edge_risk_level ["low", "high"] cexAssign 0 1 = "low" := by
  refine ⟨rfl, rfl, by decide, by decide, rfl, by decide, rfl⟩

/-- C9 amended: in map_regions_to_road_network of warp.py an edge with both
endpoints assigned takes the endpoint region of strictly higher flood-risk
severity (the u endpoint on ties), under the severity ordering
low < moderate < high < severe < extreme, and an edge with a single assigned
endpoint takes that region; the lighter tload.py variant instead tags every
edge with its u endpoint region, ignoring v. -/
theorem claim_C9_amended :
    (∀ ur vr : Warp.Region,
      Warp.risk_priority ur.flood_risk_level > Warp.risk_priority vr.flood_risk_level →
      Warp.edge_region (some ur) (some vr) = some ur) ∧
    (∀ ur vr : Warp.Region,
      Warp.risk_priority vr.flood_risk_level > Warp.risk_priority ur.flood_risk_level →
      Warp.edge_region (some ur) (some vr) = some vr) ∧
    (∀ ur vr : Warp.Region,
      Warp.risk_priority ur.flood_risk_level = Warp.risk_priority vr.flood_risk_level →
      Warp.edge_region (some ur) (some vr) = some ur) ∧
    (∀ ur : Warp.Region,
      Warp.edge_region (some ur) none = some ur ∧ Warp.edge_region none (some ur) = some ur) ∧
    (Warp.risk_priority "low" < Warp.risk_priority "moderate" ∧
      Warp.risk_priority "moderate" < Warp.risk_priority "high" ∧
      Warp.risk_priority "high" < Warp.risk_priority "severe" ∧
      Warp.risk_priority "severe" < Warp.risk_priority "extreme") ∧
    (∀ (assign : ℕ → Option ℕ) (u v : ℕ), Tload.edge_region_idx assign u v = assign u) := by
  refine ⟨?_, ?_, ?_, ?_, by decide, ?_⟩
  · intro ur vr h
    unfold Warp.edge_region
    dsimp only
    rw [if_pos (le_of_lt h)]
  · intro ur vr h
    unfold Warp.edge_region
    dsimp only
    rw [if_neg (by omega)]
  · intro ur vr h
    unfold Warp.edge_region
    dsimp only
    rw [if_pos (le_of_eq h.symm)]
  · intro ur
    exact ⟨rfl, rfl⟩
  · intro assign u v
    rfl

/-- Witness for C9 amended: concrete regions of each severity class. -/
theorem claim_C9_witness :
    (Warp.risk_priority "high" > Warp.risk_priority "low" ∧
      Warp.edge_region (some { areas := "a", flood_risk_level := "high" })
        (some { areas := "b", flood_risk_level := "low" })
        = some { areas := "a", flood_risk_level := "high" }) ∧
    (Warp.risk_priority "severe" > Warp.risk_priority "moderate" ∧
      Warp.edge_region (some { areas := "a", flood_risk_level := "moderate" })
        (some { areas := "b", flood_risk_level := "severe" })
        = some { areas := "b", flood_risk_level := "severe" }) ∧
    (Warp.risk_priority "moderate" = Warp.risk_priority "moderate" ∧
      Warp.edge_region (some { areas := "a", flood_risk_level := "moderate" })
        (some { areas := "b", flood_risk_level := "moderate" })
        = some { areas := "a", flood_risk_level := "moderate" }) :=
  ⟨⟨by decide,
    claim_C9_amended.1 { areas := "a", flood_risk_level := "high" }
      { areas := "b", flood_risk_level := "low" } (by decide)⟩,
   ⟨by decide,
    claim_C9_amended.2.1 { areas := "a", flood_risk_level := "moderate" }
      { areas := "b", flood_risk_level := "severe" } (by decide)⟩,
   ⟨rfl,
    claim_C9_amended.2.2.1 { areas := "a", flood_risk_level := "moderate" }
      { areas := "b", flood_risk_level := "moderate" } rfl⟩⟩

/-- C10: in the simple variants only a catalog-order prefix of the safe
destinations is ever considered.  Every destination returned by
calculate_simple_routes is the name of one of the first three safe areas in
catalog order, and every route returned by get_two_safest_routes comes from a
shortest path to one of the first five safe nodes; an eligible safe
destination beyond the prefix is never returned, regardless of its distance. -/
theorem claim_C10_prefix :
    (∀ (metric : String → String → ℕ) (d : ℚ → ℚ → ℚ → ℚ → ℚ)
      (df : List Simple.AreaRecord) (q : String) (r : Simple.Route),
      r ∈ (Simple.calculate_simple_routes metric d df q).2.2 →
      r.destination ∈ ((df.filter (fun x => Simple.isSafe x)).take 3).map (fun x => x.areas)) ∧
    (∀ (metric : String → String → ℕ) (nearest_nodes : ℚ → ℚ → ℕ)
      (shortest_path : ℕ → ℕ → Option (List ℕ)) (edge_length edge_risk : ℕ → ℕ → ℚ)
      (df : List EvacApp.AreaRecord) (q bm : String) (sc : Option ℕ)
      (rl : List EvacApp.Route) (r : EvacApp.Route),
      EvacApp.get_two_safest_routes metric nearest_nodes shortest_path edge_length edge_risk df q
        = (some bm, sc, some rl) →
      r ∈ rl →
      ∃ start_area, df.find? (fun x => x.areas = bm) = some start_area ∧
        ∃ dn ∈ (EvacApp.safe_nodes nearest_nodes df).take 5,
          shortest_path (nearest_nodes start_area.longitude start_area.latitude) dn
            = some r.path) := by
  constructor
  · intro metric d df q r h
    unfold Simple.calculate_simple_routes at h
    cases hE : extractOne metric (strToLower q) (uniqueFirst (df.map (fun x => x.areas))) with
    | none => rw [hE] at h; simp at h
    | some p =>
      obtain ⟨best_match, score⟩ := p
      rw [hE] at h
      dsimp only at h
      by_cases hsc : score < 60
      · rw [if_pos hsc] at h; simp at h
      · rw [if_neg hsc] at h
        cases hF : df.find? (fun x => x.areas = best_match) with
        | none => rw [hF] at h; simp at h
        | some start =>
          rw [hF] at h
          dsimp only at h
          by_cases hEmp : (df.filter (fun x => Simple.isSafe x)).isEmpty
          · rw [if_pos hEmp] at h; simp at h
          · rw [if_neg hEmp] at h
            have h1 : r ∈ List.insertionSort Simple.routeLe _ := List.mem_of_mem_take h
            have h2 := (List.perm_insertionSort Simple.routeLe _).mem_iff.mp h1
            obtain ⟨sa, hsa, hr⟩ := List.mem_map.mp h2
            exact List.mem_map.mpr ⟨sa, hsa, by rw [← hr]⟩
  · intro metric nearest_nodes shortest_path edge_length edge_risk df q bm sc rl r hout h
    unfold EvacApp.get_two_safest_routes at hout
    cases hE : extractOne metric (strToLower q) (uniqueFirst (df.map (fun x => x.areas))) with
    | none => rw [hE] at hout; simp at hout
    | some p =>
      obtain ⟨best_match, score⟩ := p
      rw [hE] at hout
      dsimp only at hout
      by_cases hsc : score < 60
      · rw [if_pos hsc] at hout; simp at hout
      · rw [if_neg hsc] at hout
        cases hF : df.find? (fun x => x.areas = best_match) with
        | none => rw [hF] at hout; simp at hout
        | some start =>
          rw [hF] at hout
          dsimp only at hout
          by_cases hEmp : (EvacApp.safe_nodes nearest_nodes df).isEmpty
          · rw [if_pos hEmp] at hout
            simp only [Prod.mk.injEq, Option.some.injEq] at hout
            obtain ⟨hbm, _, hrl⟩ := hout
            rw [← hrl] at h
            simp at h
          · rw [if_neg hEmp] at hout
            simp only [Prod.mk.injEq, Option.some.injEq] at hout
            obtain ⟨hbm, _, hrl⟩ := hout
            subst hbm
            refine ⟨start, hF, ?_⟩
            rw [← hrl] at h
            have h1 : r ∈ List.insertionSort EvacApp.routeLe _ := List.mem_of_mem_take h
            have h2 := (List.perm_insertionSort EvacApp.routeLe _).mem_iff.mp h1
            obtain ⟨dn, hdn, hfd⟩ := List.mem_filterMap.mp h2
            refine ⟨dn, hdn, ?_⟩
            cases hsp : shortest_path (nearest_nodes start.longitude start.latitude) dn with
            | none => rw [hsp] at hfd; simp at hfd
            | some path =>
              rw [hsp] at hfd
              simp only [Option.map_some', Option.some.injEq] at hfd
              rw [← hfd]

/-- Witness catalog for the road-graph variant: a Moderate start and one Low
safe destination. -/
def evacWitnessDf : List EvacApp.AreaRecord :=
  [ { areas := "fort", latitude := 189354/10000, longitude := 728354/10000,
      flood_risk_level := "Moderate" },
    { areas := "churchgate", latitude := 189346/10000, longitude := 728284/10000,
      flood_risk_level := "Low" } ]

/-- Degenerate nearest-node lookup mapping every coordinate to node 0. -/
def wNearest : ℚ → ℚ → ℕ := fun _ _ => 0

/-- Degenerate shortest-path returning the two-node path. -/
def wShortestPath : ℕ → ℕ → Option (List ℕ) := fun a b => some [a, b]

/-- Constant edge attribute lookup. -/
def wEdgeAttr : ℕ → ℕ → ℚ := fun _ _ => 1

/-- The route list the witness graph produces. -/
def evacRl : List EvacApp.Route :=
  [ { path := [0, 0], distance_km := 1/1000, eta_min := 1/500, risk := 1 } ]

instance : Inhabited Simple.Route :=
  ⟨{ destination := "", destination_lat := 0, destination_lon := 0,
     distance_km := 0, eta_min := 0, risk_level := "" }⟩

instance : Inhabited EvacApp.Route :=
  ⟨{ path := [], distance_km := 0, eta_min := 0, risk := 0 }⟩

unseal Rat.add Rat.mul Rat.inv Rat.sub in
/-- Witness for C10: the head route of each simple-variant output is traced
back to the catalog-order prefix of safe destinations. -/
theorem claim_C10_witness :
    ((Simple.calculate_simple_routes eqMetric absDist simpleWitnessDf "fort").2.2.headI ∈
        (Simple.calculate_simple_routes eqMetric absDist simpleWitnessDf "fort").2.2 ∧
      (Simple.calculate_simple_routes eqMetric absDist simpleWitnessDf "fort").2.2.headI.destination
        ∈ ((simpleWitnessDf.filter (fun x => Simple.isSafe x)).take 3).map (fun x => x.areas)) ∧
    (EvacApp.get_two_safest_routes eqMetric wNearest wShortestPath wEdgeAttr wEdgeAttr
        evacWitnessDf "fort" = (some "fort", some 100, some evacRl) ∧
      evacRl.headI ∈ evacRl ∧
      ∃ start_area, evacWitnessDf.find? (fun x => x.areas = "fort") = some start_area ∧
        ∃ dn ∈ (EvacApp.safe_nodes wNearest evacWitnessDf).take 5,
          wShortestPath (wNearest start_area.longitude start_area.latitude) dn
            = some evacRl.headI.path) :=
  ⟨⟨by decide,
    claim_C10_prefix.1 eqMetric absDist simpleWitnessDf "fort" _ (by decide)⟩,
   ⟨by decide, by decide,
    claim_C10_prefix.2 eqMetric wNearest wShortestPath wEdgeAttr wEdgeAttr evacWitnessDf
      "fort" "fort" (some 100) evacRl evacRl.headI (by decide) (by decide)⟩⟩
